import Mathlib

/-!
Verification development for the Cubeathon repository.

The definitions below are shallow embeddings of the TypeScript source:

* `generateTrack` embeds `generateTrack` from
  `src/frontend/src/games/cubeathon/CubeathonGame.tsx` (lines 54-72),
  together with the module constants it reads (lines 10-27).
* later sections embed the transport encoding, the Phase-B handoff
  (`importAndStartGame`) of `src/frontend/src/services/cubeathonService.ts`
  and of the variant bundled after `src/frontend/vite.config.ts`, the
  `submitScore` argument builder, and the finality-polling loops.

JavaScript numeric notes used throughout (each is exact, not an
approximation): the PRNG state is kept below 2^32 by `>>> 0`; the products
`state * 1664525 + 1013904223` (< 2^53) and `fraction * 582` (≤ 42
significant bits) are exact in IEEE-754 doubles; division by 2^32 is exact
(power of two); hence `Math.floor` of those expressions equals Nat division.
-/

/-! ## Seeded track generator (CubeathonGame.tsx) -/

/-- `const ROAD_LEFT = 60` (CubeathonGame.tsx line 13). -/
def ROAD_LEFT : Nat := 60

/-- `const ROAD_RIGHT = 800` (line 14). -/
def ROAD_RIGHT : Nat := 800

/-- `const ROAD_W = ROAD_RIGHT - ROAD_LEFT` (line 15). -/
def ROAD_W : Nat := ROAD_RIGHT - ROAD_LEFT

/-- `const WALL_H = 36` (line 21). -/
def WALL_H : Nat := 36

/-- `const GAP_W = 130` (line 22). -/
def GAP_W : Nat := 130

/-- `const WALL_GAP_PADDING = 14` (line 23). -/
def WALL_GAP_PADDING : Nat := 14

/-- `const WALLS_PER_LEVEL = [7, 9, 13]` (line 26). -/
def WALLS_PER_LEVEL : List Nat := [7, 9, 13]

/-- `const TRACK_SPACING = [420, 340, 260]` (line 27). -/
def TRACK_SPACING : List Nat := [420, 340, 260]

/-- `interface Wall { worldY: number; gapX: number; }` (line 29).
`worldY` is negative in the source, so it is an `Int`. -/
structure Wall where
  worldY : Int
  gapX : Nat
deriving DecidableEq, Repr

/-- Result of `generateTrack`: `{ walls, trackLength }` (line 71).
For an invalid level the source computes `400 + undefined * spacing + 200`,
which is JavaScript `NaN`; that is represented by `none`. -/
structure TrackResult where
  walls : List Wall
  trackLength : Option Nat
deriving DecidableEq, Repr

/-- One step of the rng closure (line 58):
`s = ((s >>> 0) * 1664525 + 1013904223) >>> 0`. -/
def lcgStep (s : Nat) : Nat :=
  (s * 1664525 + 1013904223) % 4294967296

/-- `WALLS_PER_LEVEL[level - 1]` under JavaScript indexing: `level = 0`
reads index `-1` and yields `undefined` (`none`); an index past the end
also yields `undefined`. -/
def levelLookup (xs : List Nat) (level : Nat) : Option Nat :=
  if level = 0 then none else xs.get? (level - 1)

/-- The wall-building loop (lines 65-70).  Each iteration first advances the
rng state, then derives `gapX` from the fresh state:
`gapX = WALL_GAP_PADDING + Math.floor(rng() * (maxGapLeft - WALL_GAP_PADDING))`
with `maxGapLeft = ROAD_W - GAP_W - WALL_GAP_PADDING`, and
`worldY = -(400 + i * spacing)`. -/
def genWalls (spacing : Nat) : Nat → Nat → Nat → List Wall
  | 0, _, _ => []
  | n + 1, i, s =>
    let s2 := lcgStep s
    let maxGapLeft := ROAD_W - GAP_W - WALL_GAP_PADDING
    let gapX := WALL_GAP_PADDING + s2 * (maxGapLeft - WALL_GAP_PADDING) / 4294967296
    { worldY := -(400 + (i : Int) * (spacing : Int)), gapX := gapX }
      :: genWalls spacing n (i + 1) s2

/-- `generateTrack(level, seed)` (CubeathonGame.tsx lines 54-72).
The seed is initialised as `seed ^ (level * 0xdeadbeef)` on 32-bit patterns
(JavaScript `^` truncates both operands to 32 bits); `trackLength` is
`400 + count * spacing + 200`.  The source contains no validation and no
throw: an out-of-range level makes both table lookups `undefined`, the loop
body never runs (`i < undefined` is false) and `trackLength` is `NaN`. -/
def generateTrack (level seed : Nat) : TrackResult :=
  let s0 := (seed % 4294967296) ^^^ ((level * 0xdeadbeef) % 4294967296)
  match levelLookup WALLS_PER_LEVEL level, levelLookup TRACK_SPACING level with
  | some count, some spacing =>
    { walls := genWalls spacing count 0 s0
      trackLength := some (400 + count * spacing + 200) }
  | _, _ => { walls := [], trackLength := none }

/-! ### Generator lemmas -/

theorem lcgStep_lt (s : Nat) : lcgStep s < 4294967296 :=
  Nat.mod_lt _ (by norm_num)

theorem genWalls_gap_bounds (spacing : Nat) :
    ∀ (n i s : Nat), ∀ w ∈ genWalls spacing n i s,
      WALL_GAP_PADDING ≤ w.gapX ∧ w.gapX + GAP_W ≤ ROAD_W - WALL_GAP_PADDING := by
  intro n
  induction n with
  | zero => intro i s w hw; simp [genWalls] at hw
  | succ k ih =>
    intro i s w hw
    simp only [genWalls, List.mem_cons] at hw
    rcases hw with h | h
    · subst h
      constructor
      · simp [WALL_GAP_PADDING]
      · have hs2 : lcgStep s < 4294967296 := lcgStep_lt s
        have hdiv : lcgStep s * 582 / 4294967296 ≤ 581 := by
          have hmul : lcgStep s * 582 < 582 * 4294967296 := by omega
          have := (Nat.div_lt_iff_lt_mul (by norm_num : 0 < 4294967296)).mpr hmul
          omega
        show WALL_GAP_PADDING +
            lcgStep s * (ROAD_W - GAP_W - WALL_GAP_PADDING - WALL_GAP_PADDING)
              / 4294967296 + GAP_W ≤ ROAD_W - WALL_GAP_PADDING
        simp only [ROAD_W, ROAD_LEFT, ROAD_RIGHT, GAP_W, WALL_GAP_PADDING] at hdiv ⊢
        norm_num at hdiv ⊢
        omega
    · exact ih (i + 1) (lcgStep s) w h

theorem genWalls_length (spacing : Nat) :
    ∀ (n i s : Nat), (genWalls spacing n i s).length = n := by
  intro n
  induction n with
  | zero => intro i s; simp [genWalls]
  | succ k ih => intro i s; simp [genWalls, ih]

/-! ### Claim theorems for the generator -/

/-- C1: for every valid `(seed, level)` pair with level in {1,2,3}, two
invocations of `generateTrack level seed` yield identical ordered wall
sequences (same `worldY` and `gapX` at every index) and the same
`trackLength`.  The source keeps the PRNG state in a function-local
variable seeded only from the arguments, so the embedding is a pure
function and both invocations denote the same value. -/
theorem generateTrack_deterministic (seed level : Nat)
    (_hlevel : level = 1 ∨ level = 2 ∨ level = 3)
    (t₁ t₂ : TrackResult)
    (h₁ : generateTrack level seed = t₁) (h₂ : generateTrack level seed = t₂) :
    (∀ i : Nat, t₁.walls.get? i = t₂.walls.get? i) ∧
      t₁.trackLength = t₂.trackLength := by
  subst h₁; subst h₂; exact ⟨fun _ => rfl, rfl⟩

/-- Witness for C1 at `(seed, level) = (42, 1)`. -/
theorem generateTrack_deterministic_witness :
    (1 = 1 ∨ 1 = 2 ∨ 1 = 3) ∧
      ((∀ i : Nat, (generateTrack 1 42).walls.get? i = (generateTrack 1 42).walls.get? i) ∧
        (generateTrack 1 42).trackLength = (generateTrack 1 42).trackLength) :=
  ⟨Or.inl rfl,
    generateTrack_deterministic 42 1 (Or.inl rfl) (generateTrack 1 42)
      (generateTrack 1 42) rfl rfl⟩

/-- C5: for every valid `(seed, level)` pair with level in {1,2,3}, every
wall produced by `generateTrack` has its gap entirely within the road
bounds: `WALL_GAP_PADDING ≤ gapX` and `gapX + GAP_W ≤ ROAD_W - WALL_GAP_PADDING`,
with the fixed corridor width `GAP_W = 130`. -/
theorem generateTrack_gap_in_bounds (seed level : Nat)
    (hlevel : level = 1 ∨ level = 2 ∨ level = 3) :
    GAP_W = 130 ∧
      ∀ w ∈ (generateTrack level seed).walls,
        WALL_GAP_PADDING ≤ w.gapX ∧ w.gapX + GAP_W ≤ ROAD_W - WALL_GAP_PADDING := by
  refine ⟨rfl, ?_⟩
  intro w hw
  rcases hlevel with h | h | h <;> subst h <;>
    exact genWalls_gap_bounds _ _ _ _ w hw

/-- Witness for C5 at `(seed, level) = (42, 1)`. -/
theorem generateTrack_gap_in_bounds_witness :
    (1 = 1 ∨ 1 = 2 ∨ 1 = 3) ∧
      (GAP_W = 130 ∧
        ∀ w ∈ (generateTrack 1 42).walls,
          WALL_GAP_PADDING ≤ w.gapX ∧ w.gapX + GAP_W ≤ ROAD_W - WALL_GAP_PADDING) :=
  ⟨Or.inl rfl, generateTrack_gap_in_bounds 42 1 (Or.inl rfl)⟩

/-- C6 counterexample: at the invalid level 4 the generator does not fail
fast with an `InvalidLevel` rejection — the source has no validation and no
throw site, so the call returns a (degenerate) layout: an empty wall list
and a `NaN` (`none`) track length. -/
theorem generateTrack_invalid_level_returns :
    generateTrack 4 0 = { walls := [], trackLength := none } := by
  rfl

/-- C6 amended: for every invalid level index (not in {1,2,3}) the
generator returns the degenerate layout `{ walls := [], trackLength := NaN }`
instead of rejecting; for every valid `(seed, level)` input it cannot fail
and returns a layout with the configured wall count and a defined track
length. -/
theorem generateTrack_invalid_level_behavior :
    (∀ level seed : Nat, ¬(1 ≤ level ∧ level ≤ 3) →
      generateTrack level seed = { walls := [], trackLength := none }) ∧
    (∀ level seed : Nat, 1 ≤ level → level ≤ 3 →
      ∃ count spacing, levelLookup WALLS_PER_LEVEL level = some count ∧
        levelLookup TRACK_SPACING level = some spacing ∧
        generateTrack level seed =
          ({ walls := genWalls spacing count 0
              ((seed % 4294967296) ^^^ ((level * 0xdeadbeef) % 4294967296)),
             trackLength := some (400 + count * spacing + 200) } : TrackResult)) := by
  constructor
  · intro level seed h
    have : level = 0 ∨ 4 ≤ level := by omega
    rcases this with h0 | h4
    · subst h0; rfl
    · have hw : levelLookup WALLS_PER_LEVEL level = none := by
        simp only [levelLookup, WALLS_PER_LEVEL]
        rw [if_neg (by omega)]
        apply List.get?_eq_none.mpr
        simp only [List.length]
        omega
      have ht : levelLookup TRACK_SPACING level = none := by
        simp only [levelLookup, TRACK_SPACING]
        rw [if_neg (by omega)]
        apply List.get?_eq_none.mpr
        simp only [List.length]
        omega
      simp [generateTrack, hw, ht]
  · intro level seed h1 h3
    interval_cases level
    · exact ⟨7, 420, rfl, rfl, rfl⟩
    · exact ⟨9, 340, rfl, rfl, rfl⟩
    · exact ⟨13, 260, rfl, rfl, rfl⟩

/-- Witness for the amended C6: level 4 yields the degenerate layout and
level 1 yields the 7-wall layout. -/
theorem generateTrack_invalid_level_behavior_witness :
    generateTrack 4 5 = { walls := [], trackLength := none } ∧
      ∃ count spacing, levelLookup WALLS_PER_LEVEL 1 = some count ∧
        levelLookup TRACK_SPACING 1 = some spacing ∧
        generateTrack 1 5 =
          ({ walls := genWalls spacing count 0
              ((5 % 4294967296) ^^^ ((1 * 0xdeadbeef) % 4294967296)),
             trackLength := some (400 + count * spacing + 200) } : TrackResult) :=
  ⟨generateTrack_invalid_level_behavior.1 4 5 (by omega),
    generateTrack_invalid_level_behavior.2 1 5 (by omega) (by omega)⟩

/-- C9: for seed 42, level 1, the generator returns exactly
`WALLS_PER_LEVEL[0] = 7` walls whose `worldY` values strictly decrease by
the configured spacing 420 (strictly increasing distance from start), and
no two walls' bands overlap vertically (each wall occupies
`[worldY, worldY + WALL_H]` and consecutive walls are 420 > 36 apart), so
no two safe corridors overlap. -/
theorem generateTrack_seed42_level1 :
    WALLS_PER_LEVEL.get? 0 = some 7 ∧
      (generateTrack 1 42).walls.length = 7 ∧
      List.Chain' (fun a b => b.worldY = a.worldY - 420) (generateTrack 1 42).walls ∧
      List.Pairwise (fun a b => b.worldY + (WALL_H : Int) < a.worldY)
        (generateTrack 1 42).walls := by
  have h : (generateTrack 1 42).walls =
      [{ worldY := -400, gapX := 247 }, { worldY := -820, gapX := 101 },
       { worldY := -1240, gapX := 176 }, { worldY := -1660, gapX := 401 },
       { worldY := -2080, gapX := 244 }, { worldY := -2500, gapX := 270 },
       { worldY := -2920, gapX := 80 }] := by decide
  refine ⟨rfl, ?_, ?_, ?_⟩
  · rw [h]; rfl
  · rw [h]; simp [List.chain'_cons]
  · rw [h]; decide

/-! ## Decimal digit strings

Model of JavaScript decimal rendering (`JSON.stringify` of a number,
`BigInt.prototype.toString`) and decimal reading (`BigInt(string)`), both
of which use plain base-10 digit strings for the values that occur here. -/

/-- The character for one decimal digit. -/
def digitChar (d : Nat) : Char :=
  match d with
  | 0 => '0' | 1 => '1' | 2 => '2' | 3 => '3' | 4 => '4'
  | 5 => '5' | 6 => '6' | 7 => '7' | 8 => '8' | _ => '9'

/-- Decimal rendering of a natural number, most significant digit first. -/
def natToDigits (n : Nat) : List Char :=
  if _h : n < 10 then [digitChar n]
  else natToDigits (n / 10) ++ [digitChar (n % 10)]
  termination_by n
  decreasing_by exact Nat.div_lt_self (by omega) (by omega)

/-- Decimal reading of a digit string (the value `BigInt`/`Number` assigns
to a string of decimal digits). -/
def digitsToNat (cs : List Char) : Nat :=
  cs.foldl (fun a c => a * 10 + (c.toNat - 48)) 0

/-- A decimal digit character. -/
def isDigitChar (c : Char) : Bool :=
  48 ≤ c.toNat && c.toNat ≤ 57

theorem digitChar_toNat {d : Nat} (h : d < 10) : (digitChar d).toNat = 48 + d := by
  interval_cases d <;> rfl

theorem digitsToNat_append (cs : List Char) (c : Char) :
    digitsToNat (cs ++ [c]) = digitsToNat cs * 10 + (c.toNat - 48) := by
  simp [digitsToNat, List.foldl_append]

theorem digitsToNat_natToDigits (n : Nat) : digitsToNat (natToDigits n) = n := by
  induction n using Nat.strong_induction_on with
  | _ n ih =>
    rw [natToDigits]
    by_cases h : n < 10
    · rw [dif_pos h]
      simp [digitsToNat, digitChar_toNat h]
    · rw [dif_neg h]
      rw [digitsToNat_append, ih (n / 10) (Nat.div_lt_self (by omega) (by omega))]
      rw [digitChar_toNat (Nat.mod_lt _ (by omega))]
      omega

theorem natToDigits_all_digit (n : Nat) :
    ∀ c ∈ natToDigits n, isDigitChar c = true := by
  induction n using Nat.strong_induction_on with
  | _ n ih =>
    rw [natToDigits]
    by_cases h : n < 10
    · rw [dif_pos h]
      intro c hc
      simp only [List.mem_singleton] at hc
      subst hc
      simp [isDigitChar, digitChar_toNat h]
      omega
    · rw [dif_neg h]
      intro c hc
      rw [List.mem_append] at hc
      rcases hc with hc | hc
      · exact ih (n / 10) (Nat.div_lt_self (by omega) (by omega)) c hc
      · simp only [List.mem_singleton] at hc
        subst hc
        have := Nat.mod_lt n (show 0 < 10 by omega)
        simp [isDigitChar, digitChar_toNat this]
        omega

theorem natToDigits_ne_nil (n : Nat) : natToDigits n ≠ [] := by
  rw [natToDigits]
  by_cases h : n < 10
  · rw [dif_pos h]; simp
  · rw [dif_neg h]; simp

theorem digit_toNat_bounds {c : Char} (h : isDigitChar c = true) :
    48 ≤ c.toNat ∧ c.toNat ≤ 57 := by
  simp [isDigitChar] at h
  omega

/-! ## Base64 (standard alphabet, with padding)

Model of `Buffer.from(str).toString("base64")` and
`Buffer.from(data, "base64")` on the byte lists this repository produces.
The decoder is the exact inverse on well-formed encoder output; Node's
extra leniency on malformed input is not exercised by any claim. -/

/-- The standard base64 alphabet. -/
def b64Alphabet : List Char :=
  "ABCDEFGHIJKLMNOPQRSTUVWXYZabcdefghijklmnopqrstuvwxyz0123456789+/".data

/-- Sextet value to alphabet character. -/
def b64Char (n : Nat) : Char := b64Alphabet.getD n 'A'

/-- Alphabet character back to sextet value. -/
def b64Val (c : Char) : Nat := b64Alphabet.indexOf c

/-- Encode a byte list (values < 256) in base64 with `=` padding. -/
def b64Encode : List Nat → List Char
  | a :: b :: c :: rest =>
    let x := a * 65536 + b * 256 + c
    b64Char (x / 262144 % 64) :: b64Char (x / 4096 % 64) ::
      b64Char (x / 64 % 64) :: b64Char (x % 64) :: b64Encode rest
  | [a, b] =>
    let x := a * 65536 + b * 256
    [b64Char (x / 262144 % 64), b64Char (x / 4096 % 64), b64Char (x / 64 % 64), '=']
  | [a] =>
    let x := a * 65536
    [b64Char (x / 262144 % 64), b64Char (x / 4096 % 64), '=', '=']
  | [] => []

/-- Decode base64 back to bytes (exact inverse of `b64Encode` on its
output; garbage input yields a best-effort result as Node does, which no
claim relies on). -/
def b64Decode : List Char → List Nat
  | c1 :: c2 :: c3 :: c4 :: rest =>
    if c3 = '=' then
      [(b64Val c1 * 4 + b64Val c2 / 16) % 256]
    else if c4 = '=' then
      let y := b64Val c1 * 262144 + b64Val c2 * 4096 + b64Val c3 * 64
      [y / 65536 % 256, y / 256 % 256]
    else
      let y := b64Val c1 * 262144 + b64Val c2 * 4096 + b64Val c3 * 64 + b64Val c4
      y / 65536 % 256 :: y / 256 % 256 :: y % 256 :: b64Decode rest
  | _ => []

theorem b64Val_b64Char : ∀ n < 64, b64Val (b64Char n) = n := by decide

theorem b64Char_ne_pad : ∀ n < 64, b64Char n ≠ '=' := by decide

theorem b64_roundtrip :
    ∀ bs : List Nat, (∀ b ∈ bs, b < 256) → b64Decode (b64Encode bs) = bs
  | [], _ => rfl
  | [a], h => by
    have ha : a < 256 := h a (by simp)
    simp only [b64Encode, b64Decode, if_true]
    rw [b64Val_b64Char _ (Nat.mod_lt _ (by omega)),
        b64Val_b64Char _ (Nat.mod_lt _ (by omega))]
    congr 1
    omega
  | [a, b], h => by
    have ha : a < 256 := h a (by simp)
    have hb : b < 256 := h b (by simp)
    simp only [b64Encode, b64Decode, if_true]
    rw [if_neg (b64Char_ne_pad _ (Nat.mod_lt _ (by omega)))]
    rw [b64Val_b64Char _ (Nat.mod_lt _ (by omega)),
        b64Val_b64Char _ (Nat.mod_lt _ (by omega)),
        b64Val_b64Char _ (Nat.mod_lt _ (by omega))]
    congr 1
    · omega
    · congr 1
      omega
  | a :: b :: c :: rest, h => by
    have ha : a < 256 := h a (by simp)
    have hb : b < 256 := h b (by simp)
    have hc : c < 256 := h c (by simp)
    have hrest : ∀ x ∈ rest, x < 256 := fun x hx => h x (by simp [hx])
    simp only [b64Encode, b64Decode]
    rw [if_neg (b64Char_ne_pad _ (Nat.mod_lt _ (by omega))),
        if_neg (b64Char_ne_pad _ (Nat.mod_lt _ (by omega)))]
    rw [b64Val_b64Char _ (Nat.mod_lt _ (by omega)),
        b64Val_b64Char _ (Nat.mod_lt _ (by omega)),
        b64Val_b64Char _ (Nat.mod_lt _ (by omega)),
        b64Val_b64Char _ (Nat.mod_lt _ (by omega))]
    rw [b64_roundtrip rest hrest]
    congr 1
    · omega
    · congr 1
      · omega
      · congr 1
        omega

/-! ## Simplified transport artifact (cubeathonService.ts, first service)

`prepareStartGame` (lines 260-267) serialises
`{ sessionId, player1, p1Points: p1Points.toString() }` with
`Buffer.from(JSON.stringify(data)).toString("base64")`; `parseAuthEntry`
(lines 241-254) reverses it with `JSON.parse(Buffer.from(data,
"base64").toString())` and `BigInt(decoded.p1Points || "1000000")`, falling
back to `{ sessionId: 0, player1: data, player1Points: 1000000n }` when any
step throws.  `JSON.parse` is modelled on exactly the grammar
`JSON.stringify` emits for this record shape (the only inputs any claim
exercises); any other input is mapped to the same catch fallback. -/

/-- The decoded JSON object: a number `sessionId`, a string `player1` and
a string `p1Points`. -/
structure RawEntry where
  sessionId : Nat
  player1 : List Char
  p1Points : List Char
deriving DecidableEq, Repr

/-- Consume an expected literal from the front of the input, returning the
remainder. -/
def expectLit : List Char → List Char → Option (List Char)
  | [], rest => some rest
  | _ :: _, [] => none
  | c :: cs, d :: ds => if c = d then expectLit cs ds else none

/-- Parse the canonical serialisation
`\x7b"sessionId":<digits>,"player1":"<text>","p1Points":"<text>"\x7d`. -/
def jsonParseEntry (cs : List Char) : Option RawEntry :=
  (expectLit "\x7b\"sessionId\":".data cs).bind fun r1 =>
  if r1.takeWhile (fun c => c ≠ ',') = [] ∨
      ¬ (r1.takeWhile (fun c => c ≠ ',')).all isDigitChar then none else
  (expectLit ",\"player1\":\"".data (r1.dropWhile (fun c => c ≠ ','))).bind fun r3 =>
  (expectLit "\",\"p1Points\":\"".data (r3.dropWhile (fun c => c ≠ '"'))).bind fun r5 =>
  (expectLit "\"\x7d".data (r5.dropWhile (fun c => c ≠ '"'))).bind fun r7 =>
  if r7 = [] then
    some ⟨digitsToNat (r1.takeWhile (fun c => c ≠ ',')),
          r3.takeWhile (fun c => c ≠ '"'),
          r5.takeWhile (fun c => c ≠ '"')⟩
  else none

/-- `JSON.stringify({ sessionId, player1, p1Points: p1Points.toString() })`
with the source's insertion-ordered keys (line 265). -/
def exportJson (sessionId : Nat) (player1 : String) (p1Points : Nat) : List Char :=
  "\x7b\"sessionId\":".data ++ natToDigits sessionId ++
    ",\"player1\":\"".data ++ player1.data ++
    "\",\"p1Points\":\"".data ++ natToDigits p1Points ++ "\"\x7d".data

/-- `prepareStartGame(sessionId, player1, p1Points)` (lines 260-267):
base64 of the UTF-8 bytes of the JSON text (every character here is ASCII,
so the bytes are the character codes). -/
def prepareStartGame (sessionId : Nat) (player1 : String) (p1Points : Nat) : String :=
  String.mk (b64Encode ((exportJson sessionId player1 p1Points).map Char.toNat))

/-- Result type of the simplified `parseAuthEntry`. -/
structure ParsedJson where
  sessionId : Nat
  player1 : String
  player1Points : Nat
deriving DecidableEq, Repr

/-- `parseAuthEntry(data)` (lines 241-254).  The `try` block decodes
base64, parses the JSON and applies `BigInt(decoded.p1Points || "1000000")`;
an empty `p1Points` string is falsy and takes the `"1000000"` default, a
non-decimal one makes `BigInt` throw into the catch fallback
`{ sessionId: 0, player1: data, player1Points: 1000000n }`. -/
def parseAuthEntryJson (data : String) : ParsedJson :=
  match jsonParseEntry ((b64Decode data.data).map Char.ofNat) with
  | some r =>
    if r.p1Points = [] then
      { sessionId := r.sessionId, player1 := String.mk r.player1, player1Points := 1000000 }
    else if r.p1Points.all isDigitChar then
      { sessionId := r.sessionId, player1 := String.mk r.player1,
        player1Points := digitsToNat r.p1Points }
    else
      { sessionId := 0, player1 := data, player1Points := 1000000 }
  | none => { sessionId := 0, player1 := data, player1Points := 1000000 }

/-! ### Round-trip lemmas -/

theorem expectLit_append (lit rest : List Char) :
    expectLit lit (lit ++ rest) = some rest := by
  induction lit with
  | nil => rfl
  | cons c cs ih => simp [expectLit, ih]

theorem takeWhile_all_append {p : Char → Bool} {xs : List Char}
    (h : ∀ c ∈ xs, p c = true) {y : Char} (hy : p y = false) (l : List Char) :
    (xs ++ y :: l).takeWhile p = xs := by
  induction xs with
  | nil => simp [List.takeWhile, hy]
  | cons c cs ih =>
    have hc : p c = true := h c (by simp)
    simp [List.takeWhile_cons, hc, ih (fun d hd => h d (by simp [hd]))]

theorem dropWhile_all_append {p : Char → Bool} {xs : List Char}
    (h : ∀ c ∈ xs, p c = true) {y : Char} (hy : p y = false) (l : List Char) :
    (xs ++ y :: l).dropWhile p = y :: l := by
  induction xs with
  | nil => simp [List.dropWhile, hy]
  | cons c cs ih =>
    have hc : p c = true := h c (by simp)
    simp [List.dropWhile_cons, hc, ih (fun d hd => h d (by simp [hd]))]

theorem digit_pred_comma {c : Char} (h : isDigitChar c = true) :
    (fun c => decide (c ≠ ',')) c = true := by
  have hb := digit_toNat_bounds h
  simp only [decide_eq_true_eq]
  intro hc
  subst hc
  exact absurd hb (by decide)

theorem digit_pred_quote {c : Char} (h : isDigitChar c = true) :
    (fun c => decide (c ≠ '"')) c = true := by
  have hb := digit_toNat_bounds h
  simp only [decide_eq_true_eq]
  intro hc
  subst hc
  exact absurd hb (by decide)

theorem jsonParseEntry_exportJson (sid : Nat) (p1 : String) (pts : Nat)
    (hp1 : ∀ c ∈ p1.data, c ≠ '"') :
    jsonParseEntry (exportJson sid p1 pts) =
      some ⟨sid, p1.data, natToDigits pts⟩ := by
  have hp1' : ∀ c ∈ p1.data, (fun c => decide (c ≠ '"')) c = true := by
    intro c hc
    simp only [decide_eq_true_eq]
    exact hp1 c hc
  have hdigS : ∀ c ∈ natToDigits sid, (fun c => decide (c ≠ ',')) c = true :=
    fun c hc => digit_pred_comma (natToDigits_all_digit sid c hc)
  have hdigP : ∀ c ∈ natToDigits pts, (fun c => decide (c ≠ '"')) c = true :=
    fun c hc => digit_pred_quote (natToDigits_all_digit pts c hc)
  have h1 : expectLit "\x7b\"sessionId\":".data (exportJson sid p1 pts) =
      some (natToDigits sid ++ ',' :: ("\"player1\":\"".data ++ (p1.data ++
        ('"' :: (",\"p1Points\":\"".data ++
          (natToDigits pts ++ '"' :: "\x7d".data)))))) := by
    unfold exportJson
    simp only [List.append_assoc]
    exact expectLit_append _ _
  unfold jsonParseEntry
  rw [h1]
  simp only [Option.some_bind]
  rw [takeWhile_all_append hdigS (by decide),
      dropWhile_all_append hdigS (by decide)]
  rw [if_neg (by
    simp only [not_or, List.all_eq_true]
    exact ⟨natToDigits_ne_nil sid, by
      intro h
      exact h (fun c hc => natToDigits_all_digit sid c hc)⟩)]
  have h2 : ∀ X : List Char,
      expectLit ",\"player1\":\"".data (',' :: ("\"player1\":\"".data ++ X)) = some X :=
    fun X => expectLit_append _ X
  rw [h2]
  simp only [Option.some_bind]
  rw [takeWhile_all_append hp1' (by decide),
      dropWhile_all_append hp1' (by decide)]
  have h3 : ∀ X : List Char,
      expectLit "\",\"p1Points\":\"".data ('"' :: (",\"p1Points\":\"".data ++ X)) =
        some X :=
    fun X => expectLit_append _ X
  rw [h3]
  simp only [Option.some_bind]
  rw [takeWhile_all_append hdigP (by decide),
      dropWhile_all_append hdigP (by decide)]
  have h4 : expectLit "\"\x7d".data ('"' :: "\x7d".data) = some [] :=
    expectLit_append _ []
  rw [h4]
  simp only [Option.some_bind]
  simp only [if_true]
  rw [digitsToNat_natToDigits]

/-- C7: for every valid tuple (session id, initiator identity, stake) —
boundary stake values included — decoding the transport artifact produced
by encoding recovers the same tuple:
`parseAuthEntry(prepareStartGame(sid, p1, pts)) = { sid, p1, pts }`.
The identity hypothesis says `p1` is printable ASCII without `"` or `\`
(Stellar account identifiers are base32 text, which satisfies this), and
the session id is a 32-bit value as required of callers. -/
theorem parseAuthEntry_prepareStartGame_roundtrip
    (sid : Nat) (p1 : String) (pts : Nat)
    (_hsid : sid < 4294967296)
    (hp1 : ∀ c ∈ p1.data, 32 ≤ c.toNat ∧ c.toNat < 127 ∧ c ≠ '"' ∧ c ≠ '\\') :
    parseAuthEntryJson (prepareStartGame sid p1 pts) =
      { sessionId := sid, player1 := p1, player1Points := pts } := by
  have hbytes : ∀ b ∈ (exportJson sid p1 pts).map Char.toNat, b < 256 := by
    intro b hb
    rw [List.mem_map] at hb
    obtain ⟨c, hc, hcb⟩ := hb
    subst hcb
    unfold exportJson at hc
    simp only [List.mem_append] at hc
    rcases hc with ((((((hc | hc) | hc) | hc) | hc) | hc) | hc)
    · revert c; decide
    · have := digit_toNat_bounds (natToDigits_all_digit sid c hc); omega
    · revert c; decide
    · exact lt_of_lt_of_le (hp1 c hc).2.1 (by omega)
    · revert c; decide
    · have := digit_toNat_bounds (natToDigits_all_digit pts c hc); omega
    · revert c; decide
  have hdec : b64Decode (prepareStartGame sid p1 pts).data =
      (exportJson sid p1 pts).map Char.toNat := by
    show b64Decode (b64Encode _) = _
    exact b64_roundtrip _ hbytes
  unfold parseAuthEntryJson
  rw [hdec, List.map_map]
  have hid : List.map (Char.ofNat ∘ Char.toNat) (exportJson sid p1 pts) =
      exportJson sid p1 pts := by
    rw [show (Char.ofNat ∘ Char.toNat) = id from funext (fun c => Char.ofNat_toNat c),
        List.map_id]
  rw [hid, jsonParseEntry_exportJson sid p1 pts (fun c hc => (hp1 c hc).2.2.1)]
  simp only
  rw [if_neg (natToDigits_ne_nil pts),
      if_pos (by simp only [List.all_eq_true]; exact natToDigits_all_digit pts)]
  rw [digitsToNat_natToDigits]

/-- Witness for C7 at session id 7, identity `"GALICE"`, and the boundary
stake `2^127 - 1` (the largest 128-bit signed value). -/
theorem parseAuthEntry_prepareStartGame_roundtrip_witness :
    (7 < 4294967296 ∧
      ∀ c ∈ "GALICE".data, 32 ≤ c.toNat ∧ c.toNat < 127 ∧ c ≠ '"' ∧ c ≠ '\\') ∧
    parseAuthEntryJson
        (prepareStartGame 7 "GALICE" 170141183460469231731687303715884105727) =
      { sessionId := 7, player1 := "GALICE",
        player1Points := 170141183460469231731687303715884105727 } :=
  ⟨⟨by decide, by decide⟩,
    parseAuthEntry_prepareStartGame_roundtrip 7 "GALICE"
      170141183460469231731687303715884105727 (by decide) (by decide)⟩

/-! ## Contract-call values and authorization entries

Structured model of the stellar-sdk values the handoff code manipulates:
`xdr.ScVal` arguments, and `xdr.SorobanAuthorizationEntry` with either
source-account credentials or address credentials carrying a signature
expiration ledger.  The XDR byte encoding itself is library code; entries
are modelled as the structured values the source reads and writes. -/

/-- The `ScVal` argument kinds the service builds (`nativeToScVal` with
types u32/address/i128/u64, and `xdr.ScVal.scvBytes`).  An i128 is stored
as its two 64-bit halves exactly as `Int128Parts` does: a signed `hi` and
an unsigned `lo < 2^64`; its value is `hi * 2^64 + lo`. -/
inductive ScVal
  | u32 (n : Nat)
  | u64 (n : Nat)
  | i128 (hi : Int) (lo : Nat)
  | address (a : String)
  | bytes (bs : List Nat)
deriving DecidableEq, Repr

/-- `nativeToScVal(v, { type: "i128" })`: split the value into halves
(arithmetic shift for `hi`, unsigned low 64 bits for `lo`). -/
def mkI128 (v : Int) : ScVal :=
  ScVal.i128 (Int.ediv v 18446744073709551616)
    (Int.emod v 18446744073709551616).toNat

/-- A `SorobanAuthorizationEntry` as the source reads it: credential
address (`none` models `sorobanCredentialsSourceAccount`), the signature
expiration ledger, whether a signature is attached, and the root
invocation's function name and arguments. -/
structure AuthEntryRec where
  credAddr : Option String
  sigExp : Nat
  signed : Bool
  fnName : String
  args : List ScVal
deriving DecidableEq, Repr

/-- The tuple `parseAuthEntry` recovers. -/
structure ParsedTuple where
  sessionId : Nat
  player1 : String
  player1Points : Int
deriving DecidableEq, Repr

/-- The throw sites of the handoff code, one constructor per distinct
`throw new Error(...)` (or JavaScript `TypeError` from an XDR accessor
used on the wrong union arm / on `undefined`). -/
inductive SvcError
  | typeError
  | unsupportedCredential
  | wrongOperation
  | simulationFailed
  | executionWouldFail
  | txRejected
deriving DecidableEq, Repr

/-- `parseAuthEntry` of the full service in `cubeathonService.ts`
(lines 612-622): reads the credential address and
`Number(scValToNative(args[0]))` / `BigInt(scValToNative(args[3]))` with
NO check of the operation kind.  Source-account credentials make
`creds.address()` throw (`typeError`).  Argument shapes other than the
`(u32 at 0, i128 at 3)` layout produced by `start_game` invocations throw
or coerce to `NaN` in the source and are collapsed to `typeError` here; no
claim exercises those shapes. -/
def parseAuthEntrySvc (e : AuthEntryRec) : Except SvcError ParsedTuple :=
  match e.credAddr with
  | none => Except.error SvcError.typeError
  | some addr =>
    match e.args.get? 0, e.args.get? 3 with
    | some (ScVal.u32 sid), some (ScVal.i128 hi lo) =>
      Except.ok { sessionId := sid, player1 := addr,
                  player1Points := hi * 18446744073709551616 + lo }
    | _, _ => Except.error SvcError.typeError

/-- `parseAuthEntry` of the variant bundled after `vite.config.ts`
(lines 486-512): rejects non-address credentials
(`Unsupported credential type`), rejects a function name other than
`"start_game"` (`Expected "start_game" in auth entry`), then reads
`args[0].u32()` and `args[3].i128()`, computing
`(hi << 64n) | lo` — which equals `hi * 2^64 + lo` for `lo < 2^64`, also
for negative `hi` under BigInt two's-complement bitwise semantics. -/
def parseAuthEntryVite (e : AuthEntryRec) : Except SvcError ParsedTuple :=
  match e.credAddr with
  | none => Except.error SvcError.unsupportedCredential
  | some addr =>
    if e.fnName ≠ "start_game" then Except.error SvcError.wrongOperation
    else
      match e.args.get? 0, e.args.get? 3 with
      | some (ScVal.u32 sid), some (ScVal.i128 hi lo) =>
        Except.ok { sessionId := sid, player1 := addr,
                    player1Points := hi * 18446744073709551616 + lo }
      | _, _ => Except.error SvcError.typeError

/-- The `start_game` argument vector both Phase-B variants build
(`nativeToScVal` calls, service lines 505-511 / vite lines 323-329). -/
def startGameArgs (sessionId : Nat) (player1 player2 : String)
    (p1Points p2Points : Int) : List ScVal :=
  [ScVal.u32 sessionId, ScVal.address player1, ScVal.address player2,
   mkI128 p1Points, mkI128 p2Points]

/-! ## Phase B (`importAndStartGame`) of the authorization handoff

The ledger is an external collaborator reached by `getAccount`,
`simulateTransaction`, `getLatestLedger`, `sendTransaction`; its responses
are an oracle indexed by call number.  The returned trace records how many
dry-runs ran and, when `sendTransaction` was reached, the submitted
envelope's sequence number, resource footprint and authorization list.
The post-send status-polling loop mutates no ledger state and no claim
depends on it; the `result` field records the outcome up to the send. -/

/-- One `simulateTransaction` response: error flag, discovered
authorization entries, and an abstract resource footprint
(`transactionData`). -/
structure SimResult where
  isError : Bool
  auth : List AuthEntryRec
  footprint : Nat
deriving DecidableEq, Repr

/-- Ledger oracle for one Phase-B run: the sequence number returned by the
k-th `getAccount(player2)`, the latest ledger (read by
`calculateValidUntilLedger`), the k-th `simulateTransaction` response, and
whether `sendTransaction` answers `ERROR`. -/
structure PhaseBEnv where
  accountSeq : Nat → Nat
  latestLedger : Nat
  sim : Nat → SimResult
  sendError : Bool

/-- What `assembleTransaction(...).build()` + `sendTransaction` submit:
sequence number of the source account snapshot used, the footprint taken
from the chosen simulation, the spliced authorization list, and the call
arguments. -/
structure SubmittedTx where
  seqNum : Nat
  footprint : Nat
  auth : List AuthEntryRec
  args : List ScVal
deriving DecidableEq, Repr

/-- Trace of one Phase-B run. -/
structure PhaseBTrace where
  simCalls : Nat
  submitted : Option SubmittedTx
  result : Except SvcError Unit
deriving Repr

/-- The signature-splicing loop both variants share (service lines
529-550, vite lines 355-377): an entry whose credential address equals the
fragment's address is replaced verbatim by the signed fragment; an entry
for `player2` is signed via `authorizeEntry` with the fresh
`validUntil` expiration; source-account entries are skipped. -/
def spliceAuth (authList : List AuthEntryRec) (p1Signed : AuthEntryRec)
    (p1AddrKey player2 : String) (validUntil : Nat) : List AuthEntryRec :=
  authList.map fun e =>
    match e.credAddr with
    | none => e
    | some addr =>
      if addr = p1AddrKey then p1Signed
      else if addr = player2 then { e with sigExp := validUntil, signed := true }
      else e

/-- `importAndStartGame` of `cubeathonService.ts` (lines 498-604):
parse the fragment, first dry-run (`env.sim 0`), splice both signatures
(`calculateValidUntilLedger(RPC_URL, 60)` = latest + 720), then
"2. Refresh Sequence" (`getAccount`, call 1), "3. Re-simulate with AUTH"
(`env.sim 1`, aborting with `Execution would fail on-chain` on error,
before any send), "4. Assemble, Sign and Send" using the LAST dry-run's
footprint.  `p1AddrKey` is decoded from the fragment's credentials, which
is the same address `parseAuthEntry` returned as `player1`. -/
def importAndStartGameSvc (env : PhaseBEnv) (p1Auth : AuthEntryRec)
    (player2 : String) (p2Points : Int) : PhaseBTrace :=
  match parseAuthEntrySvc p1Auth with
  | Except.error e => { simCalls := 0, submitted := none, result := Except.error e }
  | Except.ok t =>
    let args := startGameArgs t.sessionId t.player1 player2 t.player1Points p2Points
    let sim0 := env.sim 0
    if sim0.isError then
      { simCalls := 1, submitted := none,
        result := Except.error SvcError.simulationFailed }
    else
      let validUntil := env.latestLedger + 60 * 12
      let auth2 := spliceAuth sim0.auth p1Auth t.player1 player2 validUntil
      let freshSeq := env.accountSeq 1
      let sim1 := env.sim 1
      if sim1.isError then
        { simCalls := 2, submitted := none,
          result := Except.error SvcError.executionWouldFail }
      else
        { simCalls := 2,
          submitted := some { seqNum := freshSeq, footprint := sim1.footprint,
                              auth := auth2, args := args },
          result := if env.sendError then Except.error SvcError.txRejected
                    else Except.ok () }

/-- `importAndStartGame` of the vite-bundled variant (vite.config.ts
lines 315-440): parse the fragment, ONE dry-run (`env.sim 0`), splice both
signatures (`calculateValidUntilLedger(RPC_URL, 30)` = latest + 360),
build `simWithAuths` by copying the FIRST simulation's result with the
spliced `auth` ("4."), refresh the account sequence ("5.",
`getAccount` call 1), and assemble the final transaction from
`simWithAuths` — there is no second `simulateTransaction`; the submitted
footprint is the first dry-run's. -/
def importAndStartGameVite (env : PhaseBEnv) (p1Auth : AuthEntryRec)
    (player2 : String) (p2Points : Int) : PhaseBTrace :=
  match parseAuthEntryVite p1Auth with
  | Except.error e => { simCalls := 0, submitted := none, result := Except.error e }
  | Except.ok t =>
    let args := startGameArgs t.sessionId t.player1 player2 t.player1Points p2Points
    let sim0 := env.sim 0
    if sim0.isError then
      { simCalls := 1, submitted := none,
        result := Except.error SvcError.simulationFailed }
    else
      let validUntil := env.latestLedger + 30 * 12
      let auth2 := spliceAuth sim0.auth p1Auth t.player1 player2 validUntil
      let freshSeq := env.accountSeq 1
      { simCalls := 1,
        submitted := some { seqNum := freshSeq, footprint := sim0.footprint,
                            auth := auth2, args := args },
        result := if env.sendError then Except.error SvcError.txRejected
                  else Except.ok () }

/-! ### Claim theorems for the handoff -/

/-- A transport artifact whose embedded operation is `end_session`, not
`start_game`, but whose argument layout matches what `start_game` uses. -/
def fragWrongOp : AuthEntryRec :=
  { credAddr := some "GPLAYER1", sigExp := 1000, signed := true,
    fnName := "end_session",
    args := [ScVal.u32 7, ScVal.address "GPLAYER1", ScVal.address "GPLAYER2",
             ScVal.i128 0 100, ScVal.i128 0 100] }

/-- C4 counterexample: the `parseAuthEntry` that Phase B of
`cubeathonService.ts` actually calls (lines 612-622) accepts a fragment
whose embedded operation is NOT `start_game` — no `MalformedFragment`
error is raised for the wrong operation kind; the tuple is recovered and
used as if the fragment were well-formed. -/
theorem parseAuthEntrySvc_accepts_wrong_operation :
    fragWrongOp.fnName ≠ "start_game" ∧
      parseAuthEntrySvc fragWrongOp =
        Except.ok { sessionId := 7, player1 := "GPLAYER1", player1Points := 100 } := by
  constructor
  · decide
  · rfl

/-- C4 amended: the vite-bundled `parseAuthEntry` (vite.config.ts lines
486-512) performs the validation the claim describes — it raises an error
when the credential is not address-type or when the embedded operation is
not `start_game`, and on a well-formed `start_game` fragment it recovers
the (session id, initiator identity, initiator stake) tuple exactly; the
service-file `parseAuthEntry` used by its own Phase B performs no
operation-kind check (see the counterexample). -/
theorem parseAuthEntryVite_validates :
    (∀ e : AuthEntryRec, e.credAddr = none →
      parseAuthEntryVite e = Except.error SvcError.unsupportedCredential) ∧
    (∀ (e : AuthEntryRec) (addr : String), e.credAddr = some addr →
      e.fnName ≠ "start_game" →
      parseAuthEntryVite e = Except.error SvcError.wrongOperation) ∧
    (∀ (sid : Nat) (addr p1 p2 : String) (hi : Int) (lo : Nat)
        (rest : List ScVal) (sigExp : Nat) (sgd : Bool),
      parseAuthEntryVite
          { credAddr := some addr, sigExp := sigExp, signed := sgd,
            fnName := "start_game",
            args := [ScVal.u32 sid, ScVal.address p1, ScVal.address p2,
                     ScVal.i128 hi lo] ++ rest } =
        Except.ok { sessionId := sid, player1 := addr,
                    player1Points := hi * 18446744073709551616 + lo }) := by
  refine ⟨?_, ?_, ?_⟩
  · intro e he
    unfold parseAuthEntryVite
    rw [he]
  · intro e addr he hf
    unfold parseAuthEntryVite
    rw [he]
    simp [hf]
  · intro sid addr p1 p2 hi lo rest sigExp sgd
    rfl

/-- Witness for the amended C4 at three concrete entries. -/
theorem parseAuthEntryVite_validates_witness :
    parseAuthEntryVite
        { credAddr := none, sigExp := 0, signed := false,
          fnName := "start_game", args := [] } =
      Except.error SvcError.unsupportedCredential ∧
    parseAuthEntryVite
        { credAddr := some "GPX", sigExp := 0, signed := false,
          fnName := "end_session", args := [] } =
      Except.error SvcError.wrongOperation ∧
    parseAuthEntryVite
        { credAddr := some "GP1", sigExp := 55, signed := true,
          fnName := "start_game",
          args := [ScVal.u32 7, ScVal.address "GP1", ScVal.address "GP2",
                   ScVal.i128 0 100] ++ [] } =
      Except.ok { sessionId := 7, player1 := "GP1",
                  player1Points := 0 * 18446744073709551616 + 100 } :=
  ⟨parseAuthEntryVite_validates.1 _ rfl,
   parseAuthEntryVite_validates.2.1 _ "GPX" rfl (by decide),
   parseAuthEntryVite_validates.2.2 7 "GP1" "GP1" "GP2" 0 100 [] 55 true⟩

/-- C2 amended: in the `cubeathonService.ts` Phase B, after the
initiator's signed fragment and the counterpart's fresh signature are
attached, the dry-run IS re-run (two simulations in total) against a
freshly re-read account sequence, and the submitted transaction takes its
footprint from that last dry-run and its sequence from the fresh read.
The vite-bundled Phase B instead performs a single dry-run and reuses its
footprint (see the counterexample). -/
theorem importAndStartGameSvc_footprint_from_final_dryrun
    (env : PhaseBEnv) (p1Auth : AuthEntryRec) (player2 : String) (p2Points : Int)
    (t : ParsedTuple) (hparse : parseAuthEntrySvc p1Auth = Except.ok t)
    (hsim0 : (env.sim 0).isError = false)
    (hsim1 : (env.sim 1).isError = false) :
    (importAndStartGameSvc env p1Auth player2 p2Points).simCalls = 2 ∧
      ∃ tx, (importAndStartGameSvc env p1Auth player2 p2Points).submitted = some tx ∧
        tx.footprint = (env.sim 1).footprint ∧ tx.seqNum = env.accountSeq 1 := by
  unfold importAndStartGameSvc
  rw [hparse]
  simp only [hsim0, hsim1, Bool.false_eq_true, if_false]
  exact ⟨trivial,
    ⟨{ seqNum := env.accountSeq 1, footprint := (env.sim 1).footprint,
       auth := spliceAuth (env.sim 0).auth p1Auth t.player1 player2
         (env.latestLedger + 60 * 12),
       args := startGameArgs t.sessionId t.player1 player2 t.player1Points p2Points },
      rfl, rfl, rfl⟩⟩

/-- Ledger oracle for the C2 scenario: the first dry-run reports footprint
10; a dry-run after the signatures were attached would report 20. -/
def envC2 : PhaseBEnv :=
  { accountSeq := fun k => 100 + k, latestLedger := 500,
    sim := fun k =>
      if k = 0 then { isError := false, auth := [], footprint := 10 }
      else { isError := false, auth := [], footprint := 20 },
    sendError := false }

/-- A well-formed signed `start_game` fragment. -/
def fragOkC2 : AuthEntryRec :=
  { credAddr := some "GP1", sigExp := 700, signed := true,
    fnName := "start_game",
    args := [ScVal.u32 7, ScVal.address "GP1", ScVal.address "GP2",
             ScVal.i128 0 100, ScVal.i128 0 100] }

/-- C2 counterexample: the vite-bundled Phase B (also cited by the claim)
performs exactly ONE dry-run — no dry-run is re-run after the signatures
are attached — and the footprint of the submitted transaction is the
first dry-run's (10), not the footprint a post-signature dry-run would
report (20).  The claim as stated is false of this Phase B variant. -/
theorem importAndStartGameVite_uses_first_footprint :
    (importAndStartGameVite envC2 fragOkC2 "GP2" 200).simCalls = 1 ∧
      ((importAndStartGameVite envC2 fragOkC2 "GP2" 200).submitted.map
          SubmittedTx.footprint) = some 10 ∧
      (envC2.sim 0).footprint = 10 ∧ (envC2.sim 1).footprint = 20 := by
  decide

/-- Witness for the amended C2 at the concrete oracle `envC2`. -/
theorem importAndStartGameSvc_footprint_witness :
    (importAndStartGameSvc envC2 fragOkC2 "GP2" 200).simCalls = 2 ∧
      ∃ tx, (importAndStartGameSvc envC2 fragOkC2 "GP2" 200).submitted = some tx ∧
        tx.footprint = (envC2.sim 1).footprint ∧ tx.seqNum = envC2.accountSeq 1 :=
  importAndStartGameSvc_footprint_from_final_dryrun envC2 fragOkC2 "GP2" 200
    { sessionId := 7, player1 := "GP1", player1Points := 100 }
    rfl rfl rfl

/-- Modelled from the spec: "a fragment is unusable once the network's
current sequence exceeds its expiration" (§3, SignedFragment) — the
repository contains no client-side expiration check, so the rejection of
an expired fragment is behavior of the external ledger: a dry-run carrying
the attached (enforced) signed obligations reports an error once the
network sequence has reached the fragment's expiration horizon.  Stated as
a constraint on the Phase-B oracle's second simulation. -/
def ledgerRejectsExpired (env : PhaseBEnv) (frag : AuthEntryRec) : Prop :=
  frag.sigExp ≤ env.latestLedger → (env.sim 1).isError = true

/-- C3 amended: the `cubeathonService.ts` Phase B, given a fragment whose
expiration horizon has passed, aborts before any submission — the re-run
dry-run (which carries the expired signed obligation) fails and
`importAndStartGame` throws the `Execution would fail on-chain` error —
so no send happens and the session remains Unstarted.  The error is the
generic re-simulation failure carrying the network's message, not a
distinct typed `Expired` error, and the vite-bundled Phase B does submit
the expired envelope (see the counterexample). -/
theorem importAndStartGameSvc_expired_rejected_before_send
    (env : PhaseBEnv) (p1Auth : AuthEntryRec) (player2 : String) (p2Points : Int)
    (t : ParsedTuple) (hparse : parseAuthEntrySvc p1Auth = Except.ok t)
    (hsim0 : (env.sim 0).isError = false)
    (hnet : ledgerRejectsExpired env p1Auth)
    (hexp : p1Auth.sigExp ≤ env.latestLedger) :
    (importAndStartGameSvc env p1Auth player2 p2Points).submitted = none ∧
      (importAndStartGameSvc env p1Auth player2 p2Points).result =
        Except.error SvcError.executionWouldFail := by
  have hsim1 : (env.sim 1).isError = true := hnet hexp
  unfold importAndStartGameSvc
  rw [hparse]
  simp only [hsim0, hsim1, Bool.false_eq_true, if_false, if_true]
  constructor <;> first | rfl | trivial

/-- Ledger oracle for the C3 scenario: the network is at ledger 500 and
the second (post-splice) dry-run rejects the expired obligation. -/
def envC3 : PhaseBEnv :=
  { accountSeq := fun k => 100 + k, latestLedger := 500,
    sim := fun k =>
      if k = 0 then { isError := false, auth := [], footprint := 10 }
      else { isError := true, auth := [], footprint := 10 },
    sendError := false }

/-- A signed `start_game` fragment whose expiration ledger 5 is far below
the network's current ledger 500: expired. -/
def fragExpired : AuthEntryRec :=
  { credAddr := some "GP1", sigExp := 5, signed := true,
    fnName := "start_game",
    args := [ScVal.u32 7, ScVal.address "GP1", ScVal.address "GP2",
             ScVal.i128 0 100, ScVal.i128 0 100] }

/-- C3 counterexample: the vite-bundled Phase B (also cited by the claim)
performs no expiration check and no post-splice dry-run, so with the
expired fragment `fragExpired` (expiration 5 ≤ current ledger 500) it
still reaches `sendTransaction` — a submission is attempted, contradicting
"rejects the attempt with an Expired error before any submission". -/
theorem importAndStartGameVite_submits_expired :
    fragExpired.sigExp ≤ envC3.latestLedger ∧
      ((importAndStartGameVite envC3 fragExpired "GP2" 200).submitted).isSome = true := by
  decide

/-- Witness for the amended C3 at the concrete oracle `envC3`. -/
theorem importAndStartGameSvc_expired_witness :
    (importAndStartGameSvc envC3 fragExpired "GP2" 200).submitted = none ∧
      (importAndStartGameSvc envC3 fragExpired "GP2" 200).result =
        Except.error SvcError.executionWouldFail :=
  importAndStartGameSvc_expired_rejected_before_send envC3 fragExpired "GP2" 200
    { sessionId := 7, player1 := "GP1", player1Points := 100 }
    rfl rfl (fun _ => rfl) (by decide)

/-! ## `submitScore` argument building

Both `submitScore` implementations (cubeathonService.ts lines 606-610 and
vite.config.ts lines 444-467) substitute placeholders for omitted
arguments — `proof ?? new Uint8Array(0)` and
`journalHash ?? new Uint8Array(32)` (32 zero bytes) — and pass the five
arguments straight to `assembleSignSend`; there is no validation and no
rejection path before the transaction is built, signed and submitted. -/

/-- The contract invocation `assembleSignSend` is asked to build: method
name, `ScVal` arguments, and source/signer account. -/
structure SubmitRequest where
  method : String
  args : List ScVal
  source : String
deriving DecidableEq, Repr

/-- The `submit_score` request built by `submitScore(sessionId, player,
timeMs, signer, proof?, journalHash?)`. -/
def submitScoreRequest (sessionId : Nat) (player : String) (timeMs : Nat)
    (proof : Option (List Nat)) (journalHash : Option (List Nat)) : SubmitRequest :=
  let proofBytes := proof.getD []
  let hashBytes := journalHash.getD (List.replicate 32 0)
  { method := "submit_score",
    args := [ScVal.u32 sessionId, ScVal.address player, ScVal.u64 timeMs,
             ScVal.bytes proofBytes, ScVal.bytes hashBytes],
    source := player }

/-- C10: for every call of `submitScore` that omits the proof and
journal-hash arguments, the operation does not reject — the request is
built (and handed to submission) with a zero-length proof byte string and
a 32-byte all-zero journal hash; and that request is identical to one in
which the caller passed those placeholder values explicitly, so the
absence of a real ZK proof is not detectable at this interface. -/
theorem submitScore_placeholder_defaults (sessionId : Nat) (player : String)
    (timeMs : Nat) :
    submitScoreRequest sessionId player timeMs none none =
      { method := "submit_score",
        args := [ScVal.u32 sessionId, ScVal.address player, ScVal.u64 timeMs,
                 ScVal.bytes [], ScVal.bytes (List.replicate 32 0)],
        source := player } ∧
    (List.replicate 32 (0 : Nat)).length = 32 ∧
    submitScoreRequest sessionId player timeMs none none =
      submitScoreRequest sessionId player timeMs (some [])
        (some (List.replicate 32 0)) :=
  ⟨rfl, rfl, rfl⟩

/-! ## Finality polling loops

Two bounded pollers are modelled over an oracle giving the k-th
`getTransaction` observation.

`startGame` (cubeathonService.ts, simplified service, lines 92-112):
up to 30 attempts; `SUCCESS` returns; `FAILED` throws
`Contract execution failed on-chain.`; a thrown error whose message
contains `not found` consumes one attempt and continues; any other thrown
error propagates; a non-terminal status also consumes one attempt; after
30 attempts it throws `Transaction timed out.` — a distinct error from the
on-chain failure.

`submitScore` (same file, lines 173-181): up to 15 attempts; `SUCCESS`
returns `true`; `FAILED` returns `false`; any other status consumes one
attempt; exhausting the attempts also returns `false`, the same value the
caller receives for an on-chain failure. -/

/-- One observed `getTransaction` outcome as the `startGame` loop
distinguishes them. -/
inductive PollResp
  | success
  | failed
  | pending
  | notFoundErr
  | otherErr
deriving DecidableEq, Repr

/-- The four caller-visible outcomes of the `startGame` poll. -/
inductive StartGameOutcome
  | ok
  | onChainFailed
  | raisedOther
  | timedOut
deriving DecidableEq, Repr

/-- The `startGame` polling loop from attempt index `k` with the given
remaining attempt budget. -/
def startGamePollFrom (oracle : Nat → PollResp) : Nat → Nat → StartGameOutcome
  | _, 0 => StartGameOutcome.timedOut
  | k, fuel + 1 =>
    match oracle k with
    | PollResp.success => StartGameOutcome.ok
    | PollResp.failed => StartGameOutcome.onChainFailed
    | PollResp.pending => startGamePollFrom oracle (k + 1) fuel
    | PollResp.notFoundErr => startGamePollFrom oracle (k + 1) fuel
    | PollResp.otherErr => StartGameOutcome.raisedOther

/-- The `startGame` poll: `retries < 30`. -/
def startGamePoll (oracle : Nat → PollResp) : StartGameOutcome :=
  startGamePollFrom oracle 0 30

/-- One observed `getTransaction` status as the `submitScore` loop
distinguishes them (`NOT_FOUND`/`PENDING` both fall into the retry arm). -/
inductive SubmitPollResp
  | success
  | failed
  | notTerminal
deriving DecidableEq, Repr

/-- The `submitScore` polling loop from attempt index `k` with the given
remaining attempt budget; the function's value is the `boolean` the caller
receives. -/
def submitScorePollFrom (oracle : Nat → SubmitPollResp) : Nat → Nat → Bool
  | _, 0 => false
  | k, fuel + 1 =>
    match oracle k with
    | SubmitPollResp.success => true
    | SubmitPollResp.failed => false
    | SubmitPollResp.notTerminal => submitScorePollFrom oracle (k + 1) fuel

/-- The `submitScore` poll: `retries < 15`. -/
def submitScorePoll (oracle : Nat → SubmitPollResp) : Bool :=
  submitScorePollFrom oracle 0 15

theorem startGamePollFrom_all_pending (oracle : Nat → PollResp) :
    ∀ (fuel k : Nat), (∀ j < fuel, oracle (k + j) = PollResp.pending) →
      startGamePollFrom oracle k fuel = StartGameOutcome.timedOut := by
  intro fuel
  induction fuel with
  | zero => intro k _; rfl
  | succ m ih =>
    intro k h
    have h0 : oracle k = PollResp.pending := by
      have := h 0 (by omega)
      simpa using this
    simp only [startGamePollFrom, h0]
    exact ih (k + 1) (fun j hj => by
      rw [show k + 1 + j = k + (j + 1) by omega]
      exact h (j + 1) (by omega))

theorem startGamePollFrom_notfound_then_success (oracle : Nat → PollResp) :
    ∀ (fuel k n : Nat), n < fuel →
      (∀ j < n, oracle (k + j) = PollResp.notFoundErr) →
      oracle (k + n) = PollResp.success →
      startGamePollFrom oracle k fuel = StartGameOutcome.ok := by
  intro fuel
  induction fuel with
  | zero => intro k n hn; omega
  | succ m ih =>
    intro k n hn hnf hs
    cases n with
    | zero =>
      have h0 : oracle k = PollResp.success := by simpa using hs
      simp [startGamePollFrom, h0]
    | succ n' =>
      have h0 : oracle k = PollResp.notFoundErr := by
        have := hnf 0 (by omega)
        simpa using this
      simp only [startGamePollFrom, h0]
      exact ih (k + 1) n' (by omega)
        (fun j hj => by
          rw [show k + 1 + j = k + (j + 1) by omega]
          exact hnf (j + 1) (by omega))
        (by rw [show k + 1 + n' = k + (n' + 1) by omega]; exact hs)

theorem submitScorePollFrom_all_notTerminal (oracle : Nat → SubmitPollResp) :
    ∀ (fuel k : Nat), (∀ j < fuel, oracle (k + j) = SubmitPollResp.notTerminal) →
      submitScorePollFrom oracle k fuel = false := by
  intro fuel
  induction fuel with
  | zero => intro k _; rfl
  | succ m ih =>
    intro k h
    have h0 : oracle k = SubmitPollResp.notTerminal := by
      have := h 0 (by omega)
      simpa using this
    simp only [submitScorePollFrom, h0]
    exact ih (k + 1) (fun j hj => by
      rw [show k + 1 + j = k + (j + 1) by omega]
      exact h (j + 1) (by omega))

/-- C8 counterexample: the `submitScore` finality poller (cited by the
claim) reports the SAME outcome `false` both when its 15-attempt budget is
exhausted without a terminal status and when the transaction actually
failed on-chain — the TimedOut outcome is NOT distinguishable from the
Failed outcome at that caller interface. -/
theorem submitScorePoll_timeout_indistinguishable_from_failed :
    submitScorePoll (fun _ => SubmitPollResp.notTerminal) = false ∧
      submitScorePoll (fun _ => SubmitPollResp.failed) = false ∧
      submitScorePoll (fun _ => SubmitPollResp.notTerminal) =
        submitScorePoll (fun _ => SubmitPollResp.failed) := by
  decide

/-- C8 amended: the service pollers poll for a bounded number of attempts
(30 for `startGame`, 15 for `submitScore`) and tolerate consecutive
not-found observations; the `startGame` poller reports budget exhaustion
as a `Transaction timed out.` outcome distinct from the on-chain-failure
outcome, but the `submitScore` poller returns `false` both on timeout and
on failure (see the counterexample). -/
theorem pollers_bounded_and_tolerant :
    (∀ oracle : Nat → PollResp, (∀ k < 30, oracle k = PollResp.pending) →
      startGamePoll oracle = StartGameOutcome.timedOut) ∧
    StartGameOutcome.timedOut ≠ StartGameOutcome.onChainFailed ∧
    (∀ (oracle : Nat → PollResp) (n : Nat), n < 30 →
      (∀ j < n, oracle j = PollResp.notFoundErr) →
      oracle n = PollResp.success →
      startGamePoll oracle = StartGameOutcome.ok) ∧
    (∀ oracle : Nat → SubmitPollResp,
      (∀ k < 15, oracle k = SubmitPollResp.notTerminal) →
      submitScorePoll oracle = false) := by
  refine ⟨?_, by decide, ?_, ?_⟩
  · intro oracle h
    exact startGamePollFrom_all_pending oracle 30 0 (fun j hj => by
      have := h j hj
      simpa using this)
  · intro oracle n hn hnf hs
    exact startGamePollFrom_notfound_then_success oracle 30 0 n hn
      (fun j hj => by have := hnf j hj; simpa using this)
      (by simpa using hs)
  · intro oracle h
    exact submitScorePollFrom_all_notTerminal oracle 15 0 (fun j hj => by
      have := h j hj
      simpa using this)

/-- Witness for the amended C8: all-pending exhausts the `startGame`
budget into the timeout outcome; three not-found observations followed by
success yield the ok outcome; all-non-terminal exhausts the `submitScore`
budget into `false`. -/
theorem pollers_bounded_and_tolerant_witness :
    startGamePoll (fun _ => PollResp.pending) = StartGameOutcome.timedOut ∧
      startGamePoll (fun k => if k < 3 then PollResp.notFoundErr else PollResp.success) =
        StartGameOutcome.ok ∧
      submitScorePoll (fun _ => SubmitPollResp.notTerminal) = false :=
  ⟨pollers_bounded_and_tolerant.1 _ (fun _ _ => rfl),
   pollers_bounded_and_tolerant.2.2.1 _ 3 (by decide)
     (fun j hj => by simp [hj]) (by decide),
   pollers_bounded_and_tolerant.2.2.2 _ (fun _ _ => rfl)⟩
